import Mathlib

/-
  Verification development for the rental reservation and order-lifecycle
  engine of the Gcet-X-Odoo repository.

  The Python source is shallowly embedded: Django model methods become pure
  Lean functions over explicit records, querysets become lists, datetimes
  become integers (minutes), Decimal becomes ℚ (Python Decimal arithmetic at
  the sizes occurring here is exact, so ℚ is a faithful model), and database
  state threading becomes explicit state passing.

  Source files embedded:
    - catalog/models.py   (Product.get_available_quantity)
    - catalog/views.py    (check_availability_ajax)
    - rentals/models.py   (Quotation.calculate_totals, QuotationLine.save,
                           RentalOrderLine.save, RentalOrder.calculate_totals,
                           RentalOrderLine.calculate_late_fee,
                           ApprovalRequest.approve / reject)
    - rentals/views.py    (quotation_detail confirm action, complete_pickup)
    - billing/models.py   (Invoice.calculate_gst)
    - system_settings/models.py (LateFeePolicy fields)
-/

namespace RentalERP

/-- Reservation lifecycle stage, from rentals/models.py Reservation.STATUS_CHOICES. -/
inductive RStatus
| confirmed
| active
| completed
| cancelled
deriving DecidableEq, Repr

/-- Quotation status, from rentals/models.py Quotation.STATUS_CHOICES. -/
inductive QStatus
| draft
| sent
| confirmed
| cancelled
| expired
deriving DecidableEq, Repr

/-- Approval status carried by Quotation and RentalOrder (approval_status field). -/
inductive AStatus
| not_required
| pending
| approved
| rejected
deriving DecidableEq, Repr

/-- Rental order status, from rentals/models.py RentalOrder. -/
inductive OStatus
| draft
| confirmed
| in_progress
| completed
| cancelled
deriving DecidableEq, Repr

/-- Return document status, from rentals/models.py Return.STATUS_CHOICES. -/
inductive RetStatus
| pending
| in_progress
| completed
| partialReturn
| damaged
deriving DecidableEq, Repr

/-- ApprovalRequest status, from rentals/models.py ApprovalRequest. -/
inductive ApStatus
| pending
| approved
| rejected
deriving DecidableEq, Repr

/-- rentals/models.py Reservation: the inventory-blocking row. Datetimes are
integers (minutes); product/variant/line references are identifiers. -/
structure Reservation where
  lineId : Nat
  productId : Nat
  product_variant : Option Nat := none
  rental_start_date : Int
  rental_end_date : Int
  quantity : Nat := 1
  status : RStatus := RStatus.confirmed
deriving DecidableEq, Repr

/-- A reservation row blocks stock when its status is confirmed or active
(the status__in=['confirmed','active'] filter used by both availability reads). -/
def isBlocking (r : Reservation) : Bool :=
  r.status = RStatus.confirmed || r.status = RStatus.active

/-- The queryset filter of catalog/views.py check_availability_ajax:
rental_start_date__lt=end_date and rental_end_date__gt=start_date. -/
def overlapsQuery (qs qe : Int) (r : Reservation) : Bool :=
  decide (r.rental_start_date < qe) && decide (qs < r.rental_end_date)

/-- Response body of check_availability_ajax (the fields the claims are about). -/
structure AvailabilityResponse where
  available : Bool
  available_quantity : Int
deriving DecidableEq, Repr

/-- catalog/views.py check_availability_ajax, lines 255-292: counts the
reservation rows for the product with status in {confirmed, active} whose
window overlaps [qs, qe), sets available_quantity = quantity_on_hand - count,
is_available = available_quantity >= quantity, and reports
max(0, available_quantity) in the JSON body. -/
def check_availability_ajax (quantity_on_hand : Nat) (rs : List Reservation)
    (pid : Nat) (qs qe : Int) (quantity : Nat) : AvailabilityResponse :=
  let n := (rs.filter (fun r => decide (r.productId = pid) && isBlocking r
              && overlapsQuery qs qe r)).length
  let avail : Int := (quantity_on_hand : Int) - (n : Int)
  { available := decide ((quantity : Int) ≤ avail)
    available_quantity := max 0 avail }

/-- catalog/models.py Product.get_available_quantity, lines 279-294: sums the
quantity field over the product's reservations with status in
{confirmed, active} and rental_end_date >= now, then returns
max(0, quantity_on_hand - reserved). -/
def get_available_quantity (quantity_on_hand : Nat) (rs : List Reservation)
    (pid : Nat) (now : Int) : Int :=
  let reserved := ((rs.filter (fun r => decide (r.productId = pid) && isBlocking r
                      && decide (now ≤ r.rental_end_date))).map (·.quantity)).sum
  max 0 ((quantity_on_hand : Int) - (reserved : Int))

/-- Modelled from the spec (§4.1 / claim wording): on-hand minus the sum of the
quantity fields of the {confirmed, active} reservations whose windows overlap
the query window under the half-open rule. For comparison with
check_availability_ajax, which counts rows instead of summing quantities. -/
def spec_available_quantity (quantity_on_hand : Nat) (rs : List Reservation)
    (pid : Nat) (qs qe : Int) : Int :=
  (quantity_on_hand : Int) -
    (((rs.filter (fun r => decide (r.productId = pid) && isBlocking r
        && overlapsQuery qs qe r)).map (·.quantity)).sum : Int)

/-- The spec's no-oversell measure: the sum of the quantity fields of the
{confirmed, active} reservations of a product whose half-open window
[rental_start_date, rental_end_date) contains the instant t. -/
def coveringSum (rs : List Reservation) (pid : Nat) (t : Int) : Nat :=
  ((rs.filter (fun r => decide (r.productId = pid) && isBlocking r
      && decide (r.rental_start_date ≤ t) && decide (t < r.rental_end_date))).map
    (·.quantity)).sum

/-- rentals/models.py QuotationLine: product, optional variant, rental window,
quantity, unit price and line total. -/
structure QuotationLine where
  productId : Nat
  product_variant : Option Nat := none
  rental_start_date : Int
  rental_end_date : Int
  quantity : Nat := 1
  unit_price : ℚ
  line_total : ℚ
deriving DecidableEq, Repr

/-- rentals/models.py QuotationLine.save: line_total is recomputed as
quantity × unit_price before every save. -/
def QuotationLine.saveLine (l : QuotationLine) : QuotationLine :=
  { l with line_total := (l.quantity : ℚ) * l.unit_price }

/-- rentals/models.py Quotation (the fields the core operations read). -/
structure Quotation where
  status : QStatus := QStatus.draft
  approval_status : AStatus := AStatus.not_required
  valid_until : Int := 0
  lines : List QuotationLine := []
  discount_amount : ℚ := 0
  subtotal : ℚ := 0
  tax_amount : ℚ := 0
  total : ℚ := 0
  advance_payment_percentage : ℚ := 0
  advance_payment_amount : ℚ := 0
deriving DecidableEq, Repr

/-- rentals/models.py Quotation.calculate_totals, lines 160-180:
subtotal = Σ line_total; tax_amount = (subtotal - discount) × 0.18;
total = subtotal - discount + tax; advance = total × percentage / 100. -/
def Quotation.calculate_totals (q : Quotation) : Quotation :=
  let subtotal := (q.lines.map (·.line_total)).sum
  let tax := (subtotal - q.discount_amount) * (18 / 100 : ℚ)
  let total := subtotal - q.discount_amount + tax
  { q with subtotal := subtotal, tax_amount := tax, total := total
           advance_payment_amount := total * q.advance_payment_percentage / 100 }

/-- rentals/models.py RentalOrderLine (fields used by the core operations). -/
structure RentalOrderLine where
  productId : Nat
  product_variant : Option Nat := none
  rental_start_date : Int
  rental_end_date : Int
  quantity : Nat := 1
  unit_price : ℚ
  line_total : ℚ
  actual_return_date : Option Int := none
  is_late_return : Bool := false
  late_days : Nat := 0
  late_fee_charged : ℚ := 0
deriving DecidableEq, Repr

/-- rentals/models.py RentalOrder (fields used by the core operations). -/
structure RentalOrder where
  status : OStatus := OStatus.draft
  lines : List RentalOrderLine := []
  subtotal : ℚ := 0
  discount_amount : ℚ := 0
  tax_amount : ℚ := 0
  late_fee : ℚ := 0
  total : ℚ := 0
  advance_payment_percentage : ℚ := 0
  advance_payment_amount : ℚ := 0
  deposit_amount : ℚ := 0
  paid_amount : ℚ := 0
deriving DecidableEq, Repr

/-- rentals/models.py RentalOrder.calculate_totals, lines 528-552:
subtotal = Σ line_total; total = subtotal - discount + tax_amount + late_fee
(tax_amount is NOT recomputed here, it keeps its current value);
advance = total × percentage / 100. -/
def RentalOrder.calculate_totals (o : RentalOrder) : RentalOrder :=
  let subtotal := (o.lines.map (·.line_total)).sum
  let total := subtotal - o.discount_amount + o.tax_amount + o.late_fee
  { o with subtotal := subtotal, total := total
           advance_payment_amount := total * o.advance_payment_percentage / 100 }

/-- The copying of a quotation line into a rental order line performed in
rentals/views.py quotation_detail lines 230-242: every field is copied, and
RentalOrderLine.save then recomputes line_total = quantity × unit_price. -/
def copyLine (l : QuotationLine) : RentalOrderLine :=
  { productId := l.productId
    product_variant := l.product_variant
    rental_start_date := l.rental_start_date
    rental_end_date := l.rental_end_date
    quantity := l.quantity
    unit_price := l.unit_price
    line_total := (l.quantity : ℚ) * l.unit_price }

/-- The reservation rows created for one order line in rentals/views.py
quotation_detail lines 243-253: one row per unit (for _ in range(quantity)),
each created without a quantity argument, hence with the model default
quantity = 1 and status = 'confirmed'. -/
def mkReservations (lineId : Nat) (l : RentalOrderLine) : List Reservation :=
  List.replicate l.quantity
    { lineId := lineId
      productId := l.productId
      product_variant := l.product_variant
      rental_start_date := l.rental_start_date
      rental_end_date := l.rental_end_date
      quantity := 1
      status := RStatus.confirmed }

/-- The two error messages of the confirm action's guards. -/
inductive ConfirmError
| notSent
| pendingApproval
deriving DecidableEq, Repr

/-- What the confirm action leaves in the store on success. -/
structure ConfirmResult where
  quotation : Quotation
  order : RentalOrder
  reservations : List Reservation
deriving DecidableEq, Repr

/-- rentals/views.py quotation_detail, action == 'confirm', lines 202-327:
fails when the quotation status is not 'sent'; fails when approval_status is
'pending'; otherwise, inside one transaction, creates the order with status
'confirmed' (discount, tax and late fee left at their 0 defaults), copies
every quotation line, creates quantity-many quantity-1 'confirmed'
reservations per line, runs RentalOrder.calculate_totals, and sets the
quotation's status to 'confirmed'. No availability check and no valid_until
check occurs anywhere on this path. -/
def quotation_detail_confirm (q : Quotation) : Except ConfirmError ConfirmResult :=
  if q.status ≠ QStatus.sent then .error .notSent
  else if q.approval_status = AStatus.pending then .error .pendingApproval
  else
    let lines := q.lines.map copyLine
    let order0 : RentalOrder :=
      { status := OStatus.confirmed
        lines := lines
        advance_payment_percentage := q.advance_payment_percentage
        advance_payment_amount := q.advance_payment_amount }
    let order := order0.calculate_totals
    let rsvs := lines.enum.flatMap (fun p => mkReservations p.1 p.2)
    .ok { quotation := { q with status := QStatus.confirmed }
          order := order
          reservations := rsvs }

/-- Whether the confirm action succeeds. -/
def confirmOk (q : Quotation) : Bool :=
  match quotation_detail_confirm q with
  | .ok _ => true
  | .error _ => false

/-- The reservations inserted by a successful confirm (none on failure). -/
def confirmReservations (q : Quotation) : List Reservation :=
  match quotation_detail_confirm q with
  | .ok r => r.reservations
  | .error _ => []

/-- billing/models.py Invoice (the fields read and written by calculate_gst). -/
structure Invoice where
  subtotal : ℚ := 0
  discount_amount : ℚ := 0
  late_fee : ℚ := 0
  damage_charges : ℚ := 0
  other_charges : ℚ := 0
  billing_state : String := ""
  vendor_state : String := ""
  cgst_rate : ℚ := 9
  sgst_rate : ℚ := 9
  igst_rate : ℚ := 18
  is_intrastate : Bool := false
  cgst_amount : ℚ := 0
  sgst_amount : ℚ := 0
  igst_amount : ℚ := 0
  tax_amount : ℚ := 0
deriving DecidableEq, Repr

/-- billing/models.py Invoice.calculate_gst, lines 307-327:
taxable = subtotal - discount + late_fee + damage_charges + other_charges;
exact string equality of billing_state and vendor_state selects the
intra-state branch (cgst and sgst at their rates, igst 0), anything else the
inter-state branch (igst at its rate, cgst = sgst = 0); tax_amount is the sum
of the three. Decimal division by 100 is exact at the 28-digit context
precision for the magnitudes involved, so ℚ arithmetic models it exactly;
no rounding or quantization is applied anywhere in this method. -/
def Invoice.calculate_gst (inv : Invoice) : Invoice :=
  let taxable := inv.subtotal - inv.discount_amount + inv.late_fee
      + inv.damage_charges + inv.other_charges
  if inv.billing_state = inv.vendor_state then
    { inv with is_intrastate := true
               cgst_amount := taxable * inv.cgst_rate / 100
               sgst_amount := taxable * inv.sgst_rate / 100
               igst_amount := 0
               tax_amount := taxable * inv.cgst_rate / 100
                               + taxable * inv.sgst_rate / 100 }
  else
    { inv with is_intrastate := false
               cgst_amount := 0
               sgst_amount := 0
               igst_amount := taxable * inv.igst_rate / 100
               tax_amount := taxable * inv.igst_rate / 100 }

/-- Modelled from the spec: rounding to 2 decimal places with ties going to
the even last digit (banker's rounding), used only to compare the spec's
claimed rounding with the code's exact arithmetic. -/
def roundHalfEven2 (x : ℚ) : ℚ :=
  let y := x * 100
  let n : Int := ⌊y⌋
  let r : ℚ := y - (n : ℚ)
  let k : Int :=
    if r < 1 / 2 then n
    else if 1 / 2 < r then n + 1
    else if n % 2 = 0 then n else n + 1
  (k : ℚ) / 100

/-- system_settings/models.py LateFeePolicy, lines 288-367 (the fields read by
RentalOrderLine.calculate_late_fee, plus the never-consulted cap). -/
structure LateFeePolicy where
  grace_period_hours : Nat := 2
  penalty_rate_per_day : ℚ := 0
  penalty_rate_per_hour : ℚ := 0
  penalty_percentage : ℚ := 0
  max_penalty_cap : Option ℚ := none
  is_active : Bool := true
deriving DecidableEq, Repr

/-- rentals/models.py RentalOrderLine.calculate_late_fee, lines 693-719,
with datetimes in minutes (1440 per day). Returns the updated line and the
returned fee. If there is no actual return date, or it is not after the
scheduled rental_end_date, the fee is 0. Otherwise late_days is set to the
floor of the late duration in days (timedelta.days); then, only when an
active policy exists and late_days > grace_period_hours / 24 (Python true
division), the fee max(0, late_days - grace_period_hours // 24) ×
penalty_rate_per_day × quantity is stored; in every other case the current
late_fee_charged field (0 for a fresh line) is returned. The policy's
max_penalty_cap and its penalty calculation method are never consulted. -/
def calculate_late_fee (l : RentalOrderLine) (policy : Option LateFeePolicy) :
    RentalOrderLine × ℚ :=
  match l.actual_return_date with
  | none => (l, 0)
  | some a =>
    if a ≤ l.rental_end_date then (l, 0)
    else
      let late_days : Nat := ((a - l.rental_end_date) / 1440).toNat
      let l1 := { l with late_days := late_days }
      match policy with
      | some p =>
        if (late_days : ℚ) > (p.grace_period_hours : ℚ) / 24 then
          let billable : Int := max 0 ((late_days : Int) - (p.grace_period_hours / 24 : Nat))
          let fee : ℚ := (billable : ℚ) * p.penalty_rate_per_day * (l.quantity : ℚ)
          ({ l1 with late_fee_charged := fee, is_late_return := true }, fee)
        else (l1, l1.late_fee_charged)
      | none => (l1, l1.late_fee_charged)

/-- rentals/models.py Pickup (the fields complete_pickup writes). -/
structure Pickup where
  actual_pickup_date : Option Int := none
  items_checked : Bool := false
  customer_id_verified : Bool := false
deriving DecidableEq, Repr

/-- rentals/models.py Return (the fields the pickup/return flow touches). -/
structure ReturnDoc where
  status : RetStatus := RetStatus.pending
  scheduled_return_date : Int
  actual_return_date : Option Int := none
deriving DecidableEq, Repr

/-- The per-order slice of store state the pickup and return flows act on. -/
structure OrderState where
  order : RentalOrder
  pickup : Option Pickup := none
  return_doc : Option ReturnDoc := none
  reservations : List Reservation := []
deriving DecidableEq, Repr

/-- rentals/models.py RentalOrder.rental_end_date property: the
rental_end_date of the first order line, None when there are no lines. -/
def RentalOrder.rental_end_date (o : RentalOrder) : Option Int :=
  o.lines.head?.map (·.rental_end_date)

/-- rentals/views.py complete_pickup, lines 599-647: records the pickup
fields (creating the Pickup row if absent), and when the order has no Return
document yet creates one with status 'pending' and scheduled_return_date
equal to the order's rental_end_date property (the first line's end date).
The order's reservations are not touched: no status transition from
'confirmed' to 'active' happens anywhere on this path. -/
def complete_pickup (st : OrderState) (actual : Int)
    (items_checked customer_id_verified : Bool) : OrderState :=
  let pk : Pickup :=
    { actual_pickup_date := some actual
      items_checked := items_checked
      customer_id_verified := customer_id_verified }
  let ret : Option ReturnDoc :=
    match st.return_doc with
    | some r => some r
    | none =>
      (st.order.rental_end_date).map
        (fun e => { status := RetStatus.pending, scheduled_return_date := e })
  { st with pickup := some pk, return_doc := ret }

/-- Approval fields of the document an ApprovalRequest is linked to. -/
structure LinkedDoc where
  approval_status : AStatus := AStatus.pending
  approved_by : Option Nat := none
  approved_at : Option Int := none
deriving DecidableEq, Repr

/-- rentals/models.py ApprovalRequest (the fields approve/reject touch). -/
structure ApprovalRequest where
  status : ApStatus := ApStatus.pending
  approved_by : Option Nat := none
  approval_notes : String := ""
  approved_at : Option Int := none
  quotation : Option LinkedDoc := none
  rental_order : Option LinkedDoc := none
deriving DecidableEq, Repr

/-- rentals/models.py ApprovalRequest.approve, lines 1166-1184: with no guard
on the current status, sets status = 'approved', records the approver, notes
and timestamp, and propagates approval to the linked quotation (or else the
linked rental order). -/
def ApprovalRequest.approve (ar : ApprovalRequest) (approver : Nat)
    (notes : String) (now : Int) : ApprovalRequest :=
  let ar1 := { ar with status := ApStatus.approved
                       approved_by := some approver
                       approval_notes := notes
                       approved_at := some now }
  match ar1.quotation with
  | some d =>
    { ar1 with quotation := some { d with approval_status := AStatus.approved
                                          approved_by := some approver
                                          approved_at := some now } }
  | none =>
    match ar1.rental_order with
    | some d =>
      { ar1 with rental_order := some { d with approval_status := AStatus.approved
                                               approved_by := some approver
                                               approved_at := some now } }
    | none => ar1

/-- rentals/models.py ApprovalRequest.reject, lines 1186-1204: the mirror of
approve, again with no guard on the current status. -/
def ApprovalRequest.reject (ar : ApprovalRequest) (approver : Nat)
    (notes : String) (now : Int) : ApprovalRequest :=
  let ar1 := { ar with status := ApStatus.rejected
                       approved_by := some approver
                       approval_notes := notes
                       approved_at := some now }
  match ar1.quotation with
  | some d =>
    { ar1 with quotation := some { d with approval_status := AStatus.rejected
                                          approved_by := some approver
                                          approved_at := some now } }
  | none =>
    match ar1.rental_order with
    | some d =>
      { ar1 with rental_order := some { d with approval_status := AStatus.rejected
                                               approved_by := some approver
                                               approved_at := some now } }
    | none => ar1

/-- The order total left behind by a successful confirm (none on failure). -/
def confirmedOrderTotal (q : Quotation) : Option ℚ :=
  match quotation_detail_confirm q with
  | .ok r => some r.order.total
  | .error _ => none

/- Concrete fixtures. Times are minutes; day d is d * 1440. -/

/-- A sent quotation for one unit of product 0 over days [0, 10). -/
def quoteW1 : Quotation :=
  { status := QStatus.sent
    lines := [{ productId := 0, rental_start_date := 0, rental_end_date := 14400
                quantity := 1, unit_price := 100, line_total := 100 }] }

/-- A sent quotation for one unit of product 0 over days [5, 15),
overlapping quoteW1's window. -/
def quoteW2 : Quotation :=
  { status := QStatus.sent
    lines := [{ productId := 0, rental_start_date := 7200, rental_end_date := 21600
                quantity := 1, unit_price := 100, line_total := 100 }] }

/-- A sent quotation for two units of product 0 over days [10, 15)
(the spec scenario's first booking). -/
def quoteX1 : Quotation :=
  { status := QStatus.sent
    lines := [{ productId := 0, rental_start_date := 14400, rental_end_date := 21600
                quantity := 2, unit_price := 50, line_total := 100 }] }

/-- A sent quotation for one unit of product 0 over days [12, 18)
(the spec scenario's overlapping second booking). -/
def quoteX2 : Quotation :=
  { status := QStatus.sent
    lines := [{ productId := 0, rental_start_date := 17280, rental_end_date := 25920
                quantity := 1, unit_price := 50, line_total := 50 }] }

/-- A single quantity-2 reservation row over days [0, 10). -/
def resQty2 : Reservation :=
  { lineId := 0, productId := 0, rental_start_date := 0, rental_end_date := 14400
    quantity := 2, status := RStatus.confirmed }

/-- A single quantity-1 reservation row over days [0, 10). -/
def resQty1 : Reservation :=
  { lineId := 0, productId := 0, rental_start_date := 0, rental_end_date := 14400
    quantity := 1, status := RStatus.confirmed }

/-- Sum of the quantity fields over a list where every quantity is 1 is the
list's length. -/
theorem sum_quantity_all_one (l : List Reservation)
    (h : ∀ r ∈ l, r.quantity = 1) : (l.map (·.quantity)).sum = l.length := by
  induction l with
  | nil => simp
  | cons a t ih =>
    simp only [List.map_cons, List.sum_cons, List.length_cons]
    rw [h a (by simp), ih (fun r hr => h r (by simp [hr]))]
    omega

/-- Claim C1 (code_bug evaluation): with product 0 owning a single unit
(quantity_on_hand = 1), confirming quoteW1 and then quoteW2 both succeed, and
afterwards the sum of the quantities of confirmed reservations covering the
instant day 6 is 2, which exceeds the on-hand quantity 1: quotation
confirmation performs no availability check, so the no-oversell invariant is
not preserved on reachable states. -/
theorem C1_oversell_reachable :
    confirmOk quoteW1 = true ∧ confirmOk quoteW2 = true ∧
    coveringSum (confirmReservations quoteW1 ++ confirmReservations quoteW2) 0 8640 = 2 ∧
    (check_availability_ajax 1
        (confirmReservations quoteW1 ++ confirmReservations quoteW2) 0 8640 8641 1).available_quantity
      = 0 ∧ 1 < 2 := by
  decide

/-- Claim C2 (code_bug evaluation): the spec's own scenario. Product 0 has
quantity_on_hand = 2; confirming quoteX1 (two units, days [10,15)) succeeds and
leaves the available quantity for the overlapping window [12,18) at 0; yet
confirming quoteX2 (one unit, days [12,18)) also succeeds and inserts a
reservation: the confirm path never re-validates availability, so no
OversellError or rollback exists. -/
theorem C2_confirm_skips_availability :
    confirmOk quoteX1 = true ∧
    check_availability_ajax 2 (confirmReservations quoteX1) 0 17280 25920 1
      = { available := false, available_quantity := 0 } ∧
    confirmOk quoteX2 = true ∧
    (confirmReservations quoteX2).length = 1 := by
  decide

/-- Claim C3 counterexample: a single overlapping reservation row with
quantity 2 against on-hand 5. The code counts rows, so it reports 4 available;
the claim's formula (on-hand minus the sum of the quantity fields) gives 3. -/
theorem C3_counterexample :
    (check_availability_ajax 5 [resQty2] 0 0 14400 1).available_quantity = 4 ∧
    spec_available_quantity 5 [resQty2] 0 0 14400 = 3 ∧
    (4 : Int) ≠ 3 := by
  decide

/-- Claim C3 (amended): check_availability_ajax reports
max(0, on-hand − the NUMBER of overlapping {confirmed, active} reservation
rows), a value that is never negative, with overlap exactly the half-open rule
s1 < e2 ∧ s2 < e1; when every reservation row carries quantity 1 (as all
core-created rows do) this equals max(0, on-hand − the sum of the quantity
fields of the overlapping rows), the claim's formula clamped at 0. -/
theorem C3_available_quantity (H : Nat) (rs : List Reservation) (pid : Nat)
    (qs qe : Int) (qty : Nat)
    (h1 : ∀ r ∈ rs, r.quantity = 1) :
    0 ≤ (check_availability_ajax H rs pid qs qe qty).available_quantity ∧
    (check_availability_ajax H rs pid qs qe qty).available_quantity
      = max 0 (spec_available_quantity H rs pid qs qe) ∧
    ∀ r ∈ rs, (overlapsQuery qs qe r = true ↔
      (r.rental_start_date < qe ∧ qs < r.rental_end_date)) := by
  refine ⟨le_max_left 0 _, ?_, ?_⟩
  · have hsum : ((rs.filter (fun r => decide (r.productId = pid) && isBlocking r
          && overlapsQuery qs qe r)).map (·.quantity)).sum
        = (rs.filter (fun r => decide (r.productId = pid) && isBlocking r
          && overlapsQuery qs qe r)).length :=
      sum_quantity_all_one _ (fun r hr => h1 r (List.mem_of_mem_filter hr))
    simp only [check_availability_ajax, spec_available_quantity]
    rw [show (fun (x : Reservation) => (x.quantity : Int))
          = (fun n : Nat => (n : Int)) ∘ (·.quantity) from rfl,
        ← List.map_map, ← Nat.cast_list_sum, hsum]
  · intro r _
    simp [overlapsQuery]

/-- Witness for C3: the amended statement evaluated at on-hand 5 and one
overlapping quantity-1 reservation row. -/
theorem C3_witness :
    (check_availability_ajax 5 [resQty1] 0 0 14400 1).available_quantity
      = max 0 (spec_available_quantity 5 [resQty1] 0 0 14400) :=
  (C3_available_quantity 5 [resQty1] 0 0 14400 1 (by decide)).2.1

/-- A sent quotation whose approval request was rejected and whose validity
has long expired (valid_until = 0, any later now). -/
def quoteRejected : Quotation :=
  { status := QStatus.sent, approval_status := AStatus.rejected, valid_until := 0
    lines := [{ productId := 0, rental_start_date := 0, rental_end_date := 14400
                quantity := 1, unit_price := 100, line_total := 100 }] }

/-- Claim C4 counterexample: a quotation with approval_status = 'rejected'
(and valid_until in the past) is confirmed successfully — the claim says
every such confirm must fail. The code only rejects status ≠ 'sent' and
approval_status = 'pending'. -/
theorem C4_counterexample :
    quoteRejected.approval_status = AStatus.rejected ∧
    quoteRejected.valid_until = 0 ∧
    confirmOk quoteRejected = true := by
  decide

/-- Claim C4 (amended): the confirm action succeeds exactly when the
quotation's status is 'sent' and its approval_status is not 'pending'
(so 'not_required', 'approved' and also 'rejected' all pass), and its outcome
is entirely independent of valid_until — expiry is not checked at confirm
time. Both failure branches return an error without touching any state. -/
theorem C4_confirm_guard (q : Quotation) (v : Int) :
    (confirmOk q = true ↔
      (q.status = QStatus.sent ∧ q.approval_status ≠ AStatus.pending)) ∧
    confirmOk { q with valid_until := v } = confirmOk q := by
  constructor
  · by_cases hs : q.status = QStatus.sent <;>
      by_cases ha : q.approval_status = AStatus.pending <;>
        simp [confirmOk, quotation_detail_confirm, hs, ha]
  · by_cases hs : q.status = QStatus.sent <;>
      by_cases ha : q.approval_status = AStatus.pending <;>
        simp [confirmOk, quotation_detail_confirm, hs, ha]

/-- On the success path the reservation rows are one quantity-1 'confirmed'
row per unit of each copied line (rentals/views.py lines 243-253). -/
theorem confirm_reservations_form (q : Quotation) (hs : q.status = QStatus.sent)
    (ha : q.approval_status ≠ AStatus.pending) :
    confirmReservations q
      = (q.lines.map copyLine).enum.flatMap (fun p => mkReservations p.1 p.2) := by
  unfold confirmReservations quotation_detail_confirm
  simp [hs, ha]

/-- On the success path the created order carries the copied lines and the
totals computed by RentalOrder.calculate_totals over them. -/
theorem confirm_order_form (q : Quotation) (hs : q.status = QStatus.sent)
    (ha : q.approval_status ≠ AStatus.pending) :
    (quotation_detail_confirm q).toOption.map (fun r => r.order)
      = some (RentalOrder.calculate_totals
          { status := OStatus.confirmed
            lines := q.lines.map copyLine
            advance_payment_percentage := q.advance_payment_percentage
            advance_payment_amount := q.advance_payment_amount }) := by
  unfold quotation_detail_confirm
  simp [hs, ha, Except.toOption]

/-- A sent quotation with one line (quantity 1 at price 100) whose totals
have been computed: subtotal 100, 18% tax, total 118. -/
def quoteT : Quotation :=
  Quotation.calculate_totals
    { status := QStatus.sent
      lines := [{ productId := 0, rental_start_date := 0, rental_end_date := 1440
                  quantity := 1, unit_price := 100, line_total := 100 }] }

/-- Claim C5 counterexample: confirming quoteT (quotation total 118, which
includes 18% tax) produces an order whose calculate_totals yields total 100 —
the order is created with tax_amount at its 0 default and
RentalOrder.calculate_totals does not recompute tax, so
order.total = subtotal ≠ quotation.total. -/
theorem C5_counterexample :
    quoteT.total = 118 ∧
    confirmedOrderTotal quoteT = some 100 ∧
    (118 : ℚ) ≠ 100 := by
  refine ⟨?_, ?_, by norm_num⟩
  · simp [quoteT, Quotation.calculate_totals]
    try norm_num
  · simp [confirmedOrderTotal, quoteT, quotation_detail_confirm,
      Quotation.calculate_totals, RentalOrder.calculate_totals, copyLine]
    try norm_num

/-- Claim C5 (amended): confirming a sent, non-pending quotation copies its
lines one-for-one — same product, variant, rental window, quantity and unit
price, with line_total recomputed as quantity × unit_price, which equals the
quotation line's own line_total since QuotationLine.save maintains the same
identity — but the resulting order's total equals the quotation's SUBTOTAL
(the sum of the line totals), not the quotation's total: the order is created
with discount, tax and late fee at their 0 defaults and
RentalOrder.calculate_totals never recomputes tax. -/
theorem C5_confirm_copies_lines (q : Quotation)
    (hl : ∀ l ∈ q.lines, l.line_total = (l.quantity : ℚ) * l.unit_price)
    (hs : q.status = QStatus.sent) (ha : q.approval_status ≠ AStatus.pending) :
    (quotation_detail_confirm q).toOption.map (fun r => r.order.lines)
      = some (q.lines.map copyLine) ∧
    (∀ l ∈ q.lines, (copyLine l).productId = l.productId ∧
        (copyLine l).product_variant = l.product_variant ∧
        (copyLine l).rental_start_date = l.rental_start_date ∧
        (copyLine l).rental_end_date = l.rental_end_date ∧
        (copyLine l).quantity = l.quantity ∧
        (copyLine l).unit_price = l.unit_price ∧
        (copyLine l).line_total = l.line_total) ∧
    (quotation_detail_confirm q).toOption.map (fun r => r.order.total)
      = some ((q.lines.map (·.line_total)).sum) ∧
    (Quotation.calculate_totals q).subtotal = (q.lines.map (·.line_total)).sum := by
  have hmap : (q.lines.map copyLine).map (·.line_total) = q.lines.map (·.line_total) := by
    rw [List.map_map]
    exact List.map_congr_left (fun l hl2 => (hl l hl2).symm)
  have hord := confirm_order_form q hs ha
  refine ⟨?_, ?_, ?_, ?_⟩
  · cases hrc : quotation_detail_confirm q with
    | error e => simp [hrc, Except.toOption] at hord
    | ok r =>
      simp [hrc, Except.toOption] at hord ⊢
      rw [hord]
      simp [RentalOrder.calculate_totals]
  · intro l _
    exact ⟨rfl, rfl, rfl, rfl, rfl, rfl, (hl l (by assumption)).symm⟩
  · cases hrc : quotation_detail_confirm q with
    | error e => simp [hrc, Except.toOption] at hord
    | ok r =>
      simp [hrc, Except.toOption] at hord ⊢
      rw [hord]
      simp [RentalOrder.calculate_totals, hmap]
  · simp [Quotation.calculate_totals]

/-- Witness for C5: the amended statement evaluated at quoteW1, whose single
line has line_total = 1 × 100; the confirmed order's total is that line sum. -/
theorem C5_witness :
    (quotation_detail_confirm quoteW1).toOption.map (fun r => r.order.total)
      = some ((quoteW1.lines.map (·.line_total)).sum) :=
  (C5_confirm_copies_lines quoteW1
    (by intro l hl; simp [quoteW1] at hl; subst hl; norm_num)
    (by decide) (by decide)).2.2.1

/-- The taxable base of Invoice.calculate_gst:
subtotal − discount + late_fee + damage_charges + other_charges. -/
def taxableAmount (inv : Invoice) : ℚ :=
  inv.subtotal - inv.discount_amount + inv.late_fee + inv.damage_charges
    + inv.other_charges

/-- An intra-state invoice over one paisa (0.01), rates 9/9/18. -/
def invPaise : Invoice :=
  { subtotal := 1 / 100, billing_state := "MH", vendor_state := "MH" }

/-- Claim C6 counterexample: on a taxable amount of 0.01 with cgst_rate 9 the
code produces cgst = 0.0009 exactly; banker's rounding to 2 decimal places
would give 0.00, so the monetary outputs are NOT rounded to 2 decimal
places — calculate_gst applies no rounding at all. -/
theorem C6_counterexample :
    (invPaise.calculate_gst).cgst_amount = 9 / 10000 ∧
    roundHalfEven2 (9 / 10000) = 0 ∧
    (9 / 10000 : ℚ) ≠ 0 := by
  refine ⟨?_, ?_, by norm_num⟩
  · simp [invPaise, Invoice.calculate_gst]
    try norm_num
  · norm_num [roundHalfEven2]

/-- Claim C6 (amended): with taxable = subtotal − discount + late_fee +
damage_charges + other_charges, an exact string match of billing_state and
vendor_state yields cgst = taxable × cgst_rate / 100,
sgst = taxable × sgst_rate / 100 and igst = 0, and any mismatch yields
cgst = sgst = 0 and igst = taxable × igst_rate / 100, with
tax_amount = cgst + sgst + igst; the outputs are these exact quotients — no
rounding to 2 decimal places (banker's or otherwise) is applied. -/
theorem C6_gst_split (inv : Invoice) :
    (inv.calculate_gst).cgst_amount
      = (if inv.billing_state = inv.vendor_state
          then taxableAmount inv * inv.cgst_rate / 100 else 0) ∧
    (inv.calculate_gst).sgst_amount
      = (if inv.billing_state = inv.vendor_state
          then taxableAmount inv * inv.sgst_rate / 100 else 0) ∧
    (inv.calculate_gst).igst_amount
      = (if inv.billing_state = inv.vendor_state
          then 0 else taxableAmount inv * inv.igst_rate / 100) ∧
    (inv.calculate_gst).tax_amount
      = (inv.calculate_gst).cgst_amount + (inv.calculate_gst).sgst_amount
          + (inv.calculate_gst).igst_amount ∧
    (inv.calculate_gst).is_intrastate
      = decide (inv.billing_state = inv.vendor_state) := by
  by_cases h : inv.billing_state = inv.vendor_state <;>
    simp [Invoice.calculate_gst, taxableAmount, h]

/-- A late-fee policy with zero grace, rate 100 per day and a 50 cap. -/
def polCap : LateFeePolicy :=
  { grace_period_hours := 0, penalty_rate_per_day := 100
    max_penalty_cap := some 50 }

/-- An order line for one unit scheduled to end at day 10 and actually
returned at day 20 (ten days late). -/
def lineLate : RentalOrderLine :=
  { productId := 0, rental_start_date := 0, rental_end_date := 14400
    quantity := 1, unit_price := 10, line_total := 10
    actual_return_date := some 28800 }

/-- Claim C7 counterexample: ten days late under polCap (rate 100/day, cap
50) the code charges 1000 — max_penalty_cap is never consulted, so the fee is
not clamped to the cap as the claim states. -/
theorem C7_counterexample :
    (calculate_late_fee lineLate (some polCap)).2 = 1000 ∧
    polCap.max_penalty_cap = some 50 ∧
    ¬ ((1000 : ℚ) ≤ 50) := by
  refine ⟨?_, by simp [polCap], by norm_num⟩
  simp [calculate_late_fee, lineLate, polCap]
  try norm_num

/-- Claim C7 (amended): for a line with a recorded actual return date, a
return at or before the scheduled end yields fee 0; a late return yields
exactly max(0, floor(late days) − grace_period_hours / 24) ×
penalty_rate_per_day × quantity (integer division for the grace days), with
NO clamping to max_penalty_cap; in particular the fee is 0 whenever the whole
late days do not exceed the whole grace days, and positive only past that
boundary when the rate and quantity are positive. -/
theorem C7_late_fee_formula (l : RentalOrderLine) (p : LateFeePolicy) (a : Int)
    (ha : l.actual_return_date = some a) (h0 : l.late_fee_charged = 0) :
    (a ≤ l.rental_end_date → (calculate_late_fee l (some p)).2 = 0) ∧
    (l.rental_end_date < a →
      (calculate_late_fee l (some p)).2
        = ((max 0 ((((a - l.rental_end_date) / 1440).toNat : Int)
              - (p.grace_period_hours / 24 : Nat)) : Int) : ℚ)
            * p.penalty_rate_per_day * (l.quantity : ℚ)) := by
  constructor
  · intro hle
    simp [calculate_late_fee, ha, hle]
  · intro hlt
    have hnle : ¬ a ≤ l.rental_end_date := not_le.mpr hlt
    by_cases hg : ((((a - l.rental_end_date) / 1440).toNat : ℚ)
        > (p.grace_period_hours : ℚ) / 24)
    · simp [calculate_late_fee, ha, hnle, hg]
    · have hq : ((((a - l.rental_end_date) / 1440).toNat : ℚ)
          ≤ (p.grace_period_hours : ℚ) / 24) := not_lt.mp hg
      have h24 : ((((a - l.rental_end_date) / 1440).toNat : ℚ) * 24
          ≤ (p.grace_period_hours : ℚ)) := by
        rw [← le_div_iff₀ (by norm_num : (0 : ℚ) < 24)]
        exact hq
      have hnat : ((a - l.rental_end_date) / 1440).toNat * 24
          ≤ p.grace_period_hours := by exact_mod_cast h24
      have hdiv : ((a - l.rental_end_date) / 1440).toNat
          ≤ p.grace_period_hours / 24 :=
        (Nat.le_div_iff_mul_le (by norm_num)).mpr hnat
      have hmax : max 0 ((((a - l.rental_end_date) / 1440).toNat : Int)
          - (p.grace_period_hours / 24 : Nat)) = 0 :=
        max_eq_left (sub_nonpos.mpr (by exact_mod_cast hdiv))
      rw [hmax]
      simp [calculate_late_fee, ha, hnle, hg, h0]

/-- Witness for C7: the amended formula evaluated at lineLate and polCap
agrees with the charged fee of 1000. -/
theorem C7_witness : (calculate_late_fee lineLate (some polCap)).2 = 1000 := by
  have h := (C7_late_fee_formula lineLate polCap 28800
    (by simp [lineLate]) (by simp [lineLate])).2 (by simp [lineLate])
  rw [h]
  norm_num [lineLate, polCap]

/-- A confirmed order for one unit ending at day 10, with its confirmed
reservation, no pickup and no return document yet. -/
def st8 : OrderState :=
  { order := { status := OStatus.confirmed
               lines := [{ productId := 0, rental_start_date := 0
                           rental_end_date := 14400, quantity := 1
                           unit_price := 10, line_total := 10 }] }
    reservations := [{ lineId := 0, productId := 0, rental_start_date := 0
                       rental_end_date := 14400 }] }

/-- Claim C8 counterexample: after complete_pickup on st8 the order's single
reservation still has status 'confirmed' — no reservation is transitioned to
'active' as the claim states; reservations are left untouched by pickup. -/
theorem C8_counterexample :
    ((complete_pickup st8 100 true true).reservations.map (·.status))
      = [RStatus.confirmed] ∧
    RStatus.confirmed ≠ RStatus.active := by
  decide

/-- Claim C8 (amended): complete_pickup records the pickup fields and ensures
a Return document exists — if one already exists it is kept unchanged (the
one-to-one rental_order link allows at most one per order), otherwise one is
created in status 'pending' with scheduled_return_date equal to the first
order line's rental_end_date — but it does NOT touch the order's
reservations: their statuses stay exactly as they were ('confirmed', not
'active'). -/
theorem C8_pickup_creates_return (st : OrderState) (a : Int) (c v : Bool)
    (l : RentalOrderLine) (ls : List RentalOrderLine)
    (hl : st.order.lines = l :: ls) :
    (complete_pickup st a c v).reservations = st.reservations ∧
    (complete_pickup st a c v).pickup
      = some { actual_pickup_date := some a, items_checked := c
               customer_id_verified := v } ∧
    (complete_pickup st a c v).return_doc
      = (match st.return_doc with
         | some r => some r
         | none => some { status := RetStatus.pending
                          scheduled_return_date := l.rental_end_date }) := by
  refine ⟨rfl, rfl, ?_⟩
  cases hr : st.return_doc with
  | some r => simp [complete_pickup, hr]
  | none => simp [complete_pickup, hr, RentalOrder.rental_end_date, hl]

/-- Witness for C8: the amended statement evaluated at st8, which has one
line ending at day 10 and no return document, so one is created pending with
scheduled_return_date 14400. -/
theorem C8_witness :
    (complete_pickup st8 100 true true).return_doc
      = some { status := RetStatus.pending, scheduled_return_date := 14400 } := by
  have h := (C8_pickup_creates_return st8 100 true true
    { productId := 0, rental_start_date := 0, rental_end_date := 14400
      quantity := 1, unit_price := 10, line_total := 10 } []
    (by simp [st8])).2.2
  simpa [st8] using h

/-- An approval request already decided as rejected, linked to a quotation
whose approval_status was propagated to rejected. -/
def arDecided : ApprovalRequest :=
  { status := ApStatus.rejected
    quotation := some { approval_status := AStatus.rejected } }

/-- Claim C9 counterexample: calling approve on an already-rejected request
flips it to 'approved' and rewrites the linked quotation's approval fields —
re-deciding is not an error and has side effects, contradicting the claim. -/
theorem C9_counterexample :
    arDecided.status = ApStatus.rejected ∧
    (arDecided.approve 7 "" 0).status = ApStatus.approved ∧
    ((arDecided.approve 7 "" 0).quotation.map (·.approval_status))
      = some AStatus.approved ∧
    arDecided.approve 7 "" 0 ≠ arDecided := by
  decide

/-- Claim C9 (amended): approve and reject are unconditional — from ANY
current status (pending, approved or rejected alike) approve sets the request
to 'approved' and reject to 'rejected', recording approver, decision
timestamp and notes, and overwriting the linked quotation's approval fields;
re-deciding an already-decided request is not rejected and freely overwrites
the previous decision. -/
theorem C9_redecide_overwrites (ar : ApprovalRequest) (u : Nat) (s : String)
    (t : Int) :
    (ar.approve u s t).status = ApStatus.approved ∧
    (ar.approve u s t).approved_by = some u ∧
    (ar.approve u s t).approved_at = some t ∧
    (ar.approve u s t).approval_notes = s ∧
    (ar.reject u s t).status = ApStatus.rejected ∧
    (ar.reject u s t).approved_by = some u ∧
    (ar.reject u s t).approved_at = some t ∧
    ((ar.approve u s t).quotation.map (·.approval_status))
      = ar.quotation.map (fun _ => AStatus.approved) ∧
    ((ar.reject u s t).quotation.map (·.approval_status))
      = ar.quotation.map (fun _ => AStatus.rejected) := by
  cases hq : ar.quotation with
  | some d =>
    refine ⟨?_, ?_, ?_, ?_, ?_, ?_, ?_, ?_, ?_⟩ <;>
      simp [ApprovalRequest.approve, ApprovalRequest.reject, hq]
  | none =>
    cases ho : ar.rental_order with
    | some d =>
      refine ⟨?_, ?_, ?_, ?_, ?_, ?_, ?_, ?_, ?_⟩ <;>
        simp [ApprovalRequest.approve, ApprovalRequest.reject, hq, ho]
    | none =>
      refine ⟨?_, ?_, ?_, ?_, ?_, ?_, ?_, ?_, ?_⟩ <;>
        simp [ApprovalRequest.approve, ApprovalRequest.reject, hq, ho]

/-- Claim C10: every reservation row created by quotation confirmation
carries quantity = 1 (the model default, since the create call passes no
quantity), a line of quantity q yields exactly q rows (the for _ in
range(quantity) loop), so the number of rows equals the sum of the line
quantities and, over these rows, counting rows and summing quantity fields
agree. -/
theorem C10_one_row_per_unit (q : Quotation) (hs : q.status = QStatus.sent)
    (ha : q.approval_status ≠ AStatus.pending) :
    (∀ res ∈ confirmReservations q, res.quantity = 1) ∧
    (confirmReservations q).length = (q.lines.map (·.quantity)).sum ∧
    ((confirmReservations q).map (·.quantity)).sum
      = (confirmReservations q).length := by
  have hform := confirm_reservations_form q hs ha
  have hone : ∀ res ∈ confirmReservations q, res.quantity = 1 := by
    intro res hres
    rw [hform] at hres
    obtain ⟨p, _, hmem⟩ := List.mem_flatMap.mp hres
    have := List.eq_of_mem_replicate hmem
    rw [this]
  refine ⟨hone, ?_, sum_quantity_all_one _ hone⟩
  rw [hform, List.length_flatMap]
  have h1 : (List.map (List.length ∘ fun p : Nat × RentalOrderLine =>
      mkReservations p.1 p.2) ((q.lines.map copyLine).enum))
      = (q.lines.map copyLine).enum.map (fun p => p.2.quantity) := by
    simp [mkReservations, Function.comp]
  rw [h1]
  rw [show (fun p : Nat × RentalOrderLine => p.2.quantity)
        = (fun l : RentalOrderLine => l.quantity) ∘ Prod.snd from rfl,
      ← List.map_map, List.enum_map_snd, List.map_map]
  rfl

/-- Witness for C10: quoteX1 (one line of quantity 2) yields exactly two
reservation rows. -/
theorem C10_witness :
    (confirmReservations quoteX1).length = (quoteX1.lines.map (·.quantity)).sum :=
  (C10_one_row_per_unit quoteX1 (by decide) (by decide)).2.1

end RentalERP
